import Mathlib

/-
Verification development for the browser-interaction layer of the
MarkIsMyNames/AI-browser repository.

The definitions below are a shallow embedding of
`src/browserInteraction/browser_types.py` and
`src/browserInteraction/browser_interaction.py`.

Modelling conventions:
  * Python dicts are association lists with Python insert semantics
    (an existing key is updated in place, a new key is appended).
  * Python truthiness of optional strings / lists is modelled explicitly
    (`None` and the empty string / empty list are falsy).
  * Wall-clock time is modelled in abstract second units: every point in
    the code that reads `time.time()` draws a value from an environment
    record, so theorems quantify over all possible clock behaviours.
    Millisecond timeouts handed to Playwright calls are `seconds * 1000`.
  * Calls into Playwright (`locator.count()`, `locator.is_visible()`,
    `locator.click(...)`, `locator.fill(...)`, `page.goto(...)`) and into
    the perception callback have their outcomes (value returned, or
    exception raised) supplied by the environment.  `page.url` is a cached
    property in Playwright's sync API and is modelled as a non-raising
    read of an environment-supplied string.
  * Python exceptions are modelled with `Except String`, the `String`
    being `str(e)`.
  * Every executed browser call is recorded in a `BrowserCall` trace so
    that theorems can speak about which calls were made, in which order,
    and with which arguments.
-/

set_option linter.unusedVariables false

namespace AIBrowser

/-- Mirrors enum `ActionType` (src/browserInteraction/browser_types.py lines 6-9). -/
inductive ActionType where
  | CLICK
  | TYPE
  | NAVIGATE
deriving DecidableEq, Repr

/-- Mirrors enum `LocatorStrategy` (browser_types.py lines 11-16). -/
inductive LocatorStrategy where
  | DISTILLED_ID
  | TEST_ID
  | ARIA_ROLE
  | TEXT
  | CSS
deriving DecidableEq, Repr

/-- Mirrors enum `FailureKind` (browser_types.py lines 18-23). -/
inductive FailureKind where
  | TIMEOUT_OR_STUCK
  | AMBIGUOUS_LOCATOR
  | UNSUPPORTED_SURFACE
  | SECURITY_BLOCK
  | GENERIC_ERROR
deriving DecidableEq, Repr

/-- Mirrors dataclass `BrowserCommand` (browser_types.py lines 25-31).
The `metadata` dict is modelled as an association list; it is never read
by `execute_command`. -/
structure BrowserCommand where
  action_type : ActionType
  element_id : Option String := none
  text_content : Option String := none
  url : Option String := none
  metadata : Option (List (String × String)) := none
deriving DecidableEq, Repr

/-- Mirrors dataclass `InteractionResult` (browser_types.py lines 33-43). -/
structure InteractionResult where
  success : Bool
  action : ActionType
  element_id : Option String := none
  locator_kind : Option LocatorStrategy := none
  url_after : Option String := none
  progress_signal : Option String := none
  failure_kind : Option FailureKind := none
  failure_reason : Option String := none
  attempted_selectors : Option (List String) := none
deriving DecidableEq, Repr

/-- Mirrors dataclass `DistilledElement` (browser_types.py lines 45-53). -/
structure DistilledElement where
  element_id : String
  tag_name : String
  role : Option String := none
  name : Option String := none
  text : Option String := none
  attributes : Option (List (String × String)) := none
  selector_hints : Option (List String) := none
deriving DecidableEq, Repr

/-! ### Python-semantics helpers -/

/-- Python truthiness of an optional string: `None` and `""` are falsy. -/
def pyTruthyOptStr : Option String → Bool
  | none => false
  | some s => !(s == "")

/-- Python truthiness of an optional list (dict / list): `None` and the
empty collection are falsy. -/
def pyTruthyOptList {α : Type} : Option (List α) → Bool
  | some (_ :: _) => true
  | _ => false

/-- Substring scan on character lists: does `needle` occur contiguously? -/
def charsContain (needle : List Char) : List Char → Bool
  | [] => needle.isEmpty
  | c :: rest => needle.isPrefixOf (c :: rest) || charsContain needle rest

/-- Python substring test `needle in hay` (also true for the empty needle,
as in Python). -/
def pyIn (needle hay : String) : Bool :=
  charsContain needle.toList hay.toList

/-- Recursive worker for `pyReplace`: leftmost, non-overlapping replacement
of a non-empty pattern, with enough fuel to consume the whole input. -/
def pyReplaceGo (old new : List Char) : Nat → List Char → List Char
  | _, [] => []
  | 0, s => s
  | fuel + 1, c :: rest =>
    if old.isPrefixOf (c :: rest) then
      new ++ pyReplaceGo old new fuel ((c :: rest).drop old.length)
    else
      c :: pyReplaceGo old new fuel rest

/-- Python `s.replace(old, new)`: replaces every (leftmost, non-overlapping)
occurrence of `old` by `new`; for the empty pattern Python inserts `new`
between every character and at both ends. -/
def pyReplace (s old new : String) : String :=
  match old.toList with
  | [] => String.mk (new.toList ++ s.toList.flatMap (fun c => c :: new.toList))
  | _ :: _ => String.mk (pyReplaceGo old.toList new.toList s.toList.length s.toList)

/-- Python `s.strip()` restricted to whitespace: drop leading and trailing
whitespace characters. -/
def pyStrip (s : String) : String :=
  String.mk (((s.toList.dropWhile Char.isWhitespace).reverse.dropWhile Char.isWhitespace).reverse)

/-! ### Dict model (Python dict as association list) -/

/-- Python `d.get(k)` / `d[k]`: first entry with the given key. -/
def dict_get {α : Type} (m : List (String × α)) (k : String) : Option α :=
  (m.find? (fun p => p.1 == k)).map (·.2)

/-- Python `d[k] = v`: update an existing key in place, otherwise append. -/
def dict_insert {α : Type} (m : List (String × α)) (k : String) (v : α) : List (String × α) :=
  match m with
  | [] => [(k, v)]
  | p :: rest => if p.1 == k then (k, v) :: rest else p :: dict_insert rest k v

/-- Python `k in d`. -/
def dict_mem {α : Type} (m : List (String × α)) (k : String) : Bool :=
  (dict_get m k).isSome

/-- Mirrors `BrowserInteractionAgent.update_map` (browser_interaction.py
lines 21-23): builds the element map as the dict comprehension
of the input list, discarding the previous map wholesale. -/
def update_map (elements : List DistilledElement) : List (String × DistilledElement) :=
  elements.foldl (fun m el => dict_insert m el.element_id el) []

/-! ### Locator specs and the strategy generator -/

/-- Description of how a Playwright locator was built.  A `LocatorSpec` is
pure data: no page query happens at construction time, matching the
Playwright API used in `_get_locators_for_distilled_element`. -/
inductive LocatorSpec where
  | cssAttr (key val : String)
  | byRole (role : String) (name : Option String)
  | byPlaceholder (placeholder : String)
  | byTextExact (text : String)
  | tagHasText (tag : String) (text : String)
  | cssSel (sel : String)
deriving DecidableEq, Repr

/-- Models Python `str(locator)`: a rendering that names the selector the
locator was built from.  The exact Playwright repr format is immaterial to
the code under verification (it is only stored in failure messages); the
quoting of attribute values inside the CSS selector string is abstracted. -/
def locatorStr : LocatorSpec → String
  | .cssAttr key val => "[" ++ key ++ "=" ++ val ++ "]"
  | .byRole role name =>
      "role=" ++ role ++ (match name with | some n => " name=" ++ n | none => "")
  | .byPlaceholder p => "placeholder=" ++ p
  | .byTextExact t => "text=" ++ t
  | .tagHasText tag t => tag ++ " has_text=" ++ t
  | .cssSel sel => sel

/-- Attribute dict of an element, empty when absent. -/
def attrsOf (element : DistilledElement) : List (String × String) :=
  element.attributes.getD []

/-- Block 1 of the generator (browser_interaction.py lines 34-42): walk the
identity-attribute preference list and stop at the first key present. -/
def firstIdLocator (attrs : List (String × String)) : List String → List (LocatorStrategy × LocatorSpec)
  | [] => []
  | key :: keys =>
    match dict_get attrs key with
    | some val => [(.DISTILLED_ID, .cssAttr key val)]
    | none => firstIdLocator attrs keys

/-- Block 2 of the generator (lines 45-52): append a locator for every
stable test attribute present. -/
def testIdLocators (attrs : List (String × String)) : List String → List (LocatorStrategy × LocatorSpec)
  | [] => []
  | key :: keys =>
    (match dict_get attrs key with
     | some val => [(.TEST_ID, .cssAttr key val)]
     | none => []) ++ testIdLocators attrs keys

/-- Python `element.name if element.name else None` (line 60). -/
def nameFilterOf (name : Option String) : Option String :=
  match name with
  | some s => if s == "" then none else some s
  | none => none

/-- Block 3 of the generator (lines 56-79): role-based locator plus, for
input/textarea elements carrying a placeholder attribute, a placeholder
locator.  The `try` around `get_by_role` cannot fail in this model because
locator construction is pure data. -/
def ariaLocators (element : DistilledElement) : List (LocatorStrategy × LocatorSpec) :=
  match element.role with
  | none => []
  | some role =>
    if role == "" then []
    else
      [(.ARIA_ROLE, .byRole role (nameFilterOf element.name))] ++
      (if (element.tag_name == "input" || element.tag_name == "textarea")
          && pyTruthyOptList element.attributes
          && dict_mem (attrsOf element) "placeholder" then
        [(.ARIA_ROLE, .byPlaceholder ((dict_get (attrsOf element) "placeholder").getD ""))]
      else [])

/-- Block 4 of the generator (lines 82-91): exact-text locator followed by a
tag-scoped has-text locator, when the element text is truthy and non-blank. -/
def textLocators (element : DistilledElement) : List (LocatorStrategy × LocatorSpec) :=
  match element.text with
  | none => []
  | some t =>
    if !(t == "") && (pyStrip t).toList.length > 0 then
      [(.TEXT, .byTextExact t), (.TEXT, .tagHasText element.tag_name t)]
    else []

/-- Block 5 of the generator (lines 95-101): one CSS locator per
perception-provided selector hint. -/
def cssLocators (element : DistilledElement) : List (LocatorStrategy × LocatorSpec) :=
  match element.selector_hints with
  | none => []
  | some hints => hints.map (fun sel => (.CSS, .cssSel sel))

/-- Mirrors `_get_locators_for_distilled_element` (browser_interaction.py
lines 25-103): the five blocks append to one list in order.  Blocks 1 and 2
run only when `element.attributes` is truthy (a non-empty dict). -/
def get_locators_for_distilled_element (element : DistilledElement) : List (LocatorStrategy × LocatorSpec) :=
  (if pyTruthyOptList element.attributes then
    firstIdLocator (attrsOf element) ["data-mark-id", "data-element-id", "id"]
   else []) ++
  (if pyTruthyOptList element.attributes then
    testIdLocators (attrsOf element) ["data-testid", "data-test", "data-qa"]
   else []) ++
  ariaLocators element ++
  textLocators element ++
  cssLocators element

/-! ### Environments for browser calls -/

/-- Outcome of probing one strategy: `exn` models `loc.count()` raising;
`counted n vis` models `count()` returning `n`, with `vis` the outcome of
`loc.is_visible()` when it is consulted (`none` models it raising). -/
inductive ProbeResult where
  | exn
  | counted (n : Nat) (vis : Option Bool)
deriving DecidableEq, Repr

/-- Trace entry for every call made into the browser / perception layer. -/
inductive BrowserCall where
  | probeCount (spec : LocatorSpec) (res : Option Nat)
  | probeVisible (spec : LocatorSpec) (res : Option Bool)
  | perceive
  | sleep (secs : Nat)
  | click (spec : LocatorSpec) (timeout_ms : Nat)
  | waitLoadState (timeout_ms : Nat)
  | fill (spec : LocatorSpec) (text : String) (timeout_ms : Nat)
  | goto (url : String) (timeout_ms : Nat)
deriving DecidableEq, Repr

/-- Environment of one pass of the resolution while-loop: the clock readings
taken during the pass, the perception results if the callback is invoked
(`Except.error` models the callback raising), and the outcome of probing
the i-th strategy of the pass. -/
structure PassEnv where
  clockAtStart : Nat
  perceiveAtStart : Except String (List DistilledElement)
  probes : Nat → ProbeResult
  probeClock : Nat → Nat
  clockAtRetryCheck : Nat
  perceiveAtRetry : Except String (List DistilledElement)

/-- Result of walking the strategy list once. -/
inductive PassResult where
  | found (strategy : LocatorStrategy) (spec : LocatorSpec)
  | exhausted
deriving DecidableEq, Repr

/-- Mirrors the inner `for strategy, loc in strategies` loop of
`_resolve_locator_with_retries` (lines 134-154): the deadline is re-checked
before each probe (`remaining <= 0: break`); a probe exception is swallowed;
zero matches are skipped; more than one match records the selector string
(last one wins) and continues; a unique visible match returns immediately. -/
def runPass (deadline : Nat) (pe : PassEnv) :
    List (LocatorStrategy × LocatorSpec) → Nat → Option String →
    (PassResult × Option String × List BrowserCall)
  | [], _, lastAmb => (.exhausted, lastAmb, [])
  | (strategy, spec) :: rest, i, lastAmb =>
    if deadline ≤ pe.probeClock i then (.exhausted, lastAmb, [])
    else
      match pe.probes i with
      | .exn =>
        let r := runPass deadline pe rest (i + 1) lastAmb
        (r.1, r.2.1, .probeCount spec none :: r.2.2)
      | .counted n vis =>
        if n == 0 then
          let r := runPass deadline pe rest (i + 1) lastAmb
          (r.1, r.2.1, .probeCount spec (some n) :: r.2.2)
        else if n > 1 then
          let r := runPass deadline pe rest (i + 1) (some (locatorStr spec))
          (r.1, r.2.1, .probeCount spec (some n) :: r.2.2)
        else
          match vis with
          | some true =>
            (.found strategy spec, lastAmb,
             [.probeCount spec (some n), .probeVisible spec (some true)])
          | some false =>
            let r := runPass deadline pe rest (i + 1) lastAmb
            (r.1, r.2.1, .probeCount spec (some n) :: .probeVisible spec (some false) :: r.2.2)
          | none =>
            let r := runPass deadline pe rest (i + 1) lastAmb
            (r.1, r.2.1, .probeCount spec (some n) :: .probeVisible spec none :: r.2.2)

/-- Structured outcome of `_resolve_locator_with_retries`; `raised` models a
perception-callback exception propagating out of the method. -/
inductive ResolveOutcome where
  | found (strategy : LocatorStrategy) (spec : LocatorSpec)
  | notFound
  | ambiguous (sel : String)
  | generic
  | raised (msg : String)
deriving DecidableEq, Repr

/-- Lines 170-173: loop exit translates the recorded ambiguity (or its
absence) into the final error. -/
def finalOut (lastAmb : Option String) : ResolveOutcome :=
  match lastAmb with
  | some sel => .ambiguous sel
  | none => .generic

/-- Record of one executed pass of the resolution loop, for stating the
retry/backoff claims. -/
structure PassRec where
  idx : Nat
  startClock : Nat
  sleptBefore : Option Nat
  refreshedBefore : Bool
deriving DecidableEq, Repr

/-- Mirrors the while-loop of `_resolve_locator_with_retries` (lines
111-173).  `bs` is the list of backoffs still unused (initially `[1, 2, 4]`;
its exhaustion is the `attempt > len(backoffs)` break), `k` the index of the
current pass, `emap` the current element map, `lastAmb` the recorded
ambiguous selector, and `slept`/`refreshed` describe what happened just
before this pass (for the trace only). -/
def resolveLoop (deadline : Nat) (element_id : String) (env : Nat → PassEnv) :
    List Nat → Nat → List (String × DistilledElement) → Option String → Option Nat → Bool →
    (ResolveOutcome × List PassRec × List BrowserCall)
  | bs, k, emap, lastAmb, slept, refreshed =>
    let pe := env k
    if deadline ≤ pe.clockAtStart then (finalOut lastAmb, [], [])
    else
      let rec0 : PassRec := ⟨k, pe.clockAtStart, slept, refreshed⟩
      let fetched : Except (ResolveOutcome × List BrowserCall)
          (DistilledElement × List (String × DistilledElement) × List BrowserCall) :=
        match dict_get emap element_id with
        | some d => .ok (d, emap, [])
        | none =>
          match pe.perceiveAtStart with
          | .error msg => .error (.raised msg, [.perceive])
          | .ok els =>
            let emap1 := update_map els
            match dict_get emap1 element_id with
            | none => .error (.notFound, [.perceive])
            | some d => .ok (d, emap1, [.perceive])
      match fetched with
      | .error (out, calls0) => (out, [rec0], calls0)
      | .ok (d, emap1, calls0) =>
        let strategies := get_locators_for_distilled_element d
        let pr := runPass deadline pe strategies 0 lastAmb
        match pr.1 with
        | .found strategy spec => (.found strategy spec, [rec0], calls0 ++ pr.2.2)
        | .exhausted =>
          match bs with
          | [] => (finalOut pr.2.1, [rec0], calls0 ++ pr.2.2)
          | b :: rest =>
            if deadline < pe.clockAtRetryCheck + b then
              (finalOut pr.2.1, [rec0], calls0 ++ pr.2.2)
            else
              match pe.perceiveAtRetry with
              | .error msg =>
                (.raised msg, [rec0], calls0 ++ pr.2.2 ++ [.sleep b, .perceive])
              | .ok els =>
                let r := resolveLoop deadline element_id env rest (k + 1)
                  (update_map els) pr.2.1 (some b) true
                (r.1, rec0 :: r.2.1, calls0 ++ pr.2.2 ++ [.sleep b, .perceive] ++ r.2.2)

/-- Entry point of `_resolve_locator_with_retries`: backoffs `[1, 2, 4]`,
pass index 0, no ambiguity recorded yet. -/
def resolve_locator_with_retries (deadline : Nat) (element_id : String)
    (emap : List (String × DistilledElement)) (env : Nat → PassEnv) :
    ResolveOutcome × List PassRec × List BrowserCall :=
  resolveLoop deadline element_id env [1, 2, 4] 0 emap none none false

/-- Renders the structured outcome into the Python return triple
`(strategy, locator, error_message)` (lines 127, 151, 171, 173), with a
raised perception exception propagating as `Except.error`. -/
def renderResolve (element_id : String) :
    ResolveOutcome → Except String (Option (LocatorStrategy × LocatorSpec) × Option String)
  | .found strategy spec => .ok (some (strategy, spec), none)
  | .notFound => .ok (none, some ("Element ID " ++ element_id ++ " not found in perception map."))
  | .ambiguous sel => .ok (none, some ("Ambiguous locator found (matches multiple elements): " ++ sel))
  | .generic => .ok (none, some "Could not resolve valid locator after retries.")
  | .raised msg => .error msg

/-! ### execute_command -/

/-- Outcome of a Playwright action call (`click`, `fill`, `goto`): success,
a `PlaywrightTimeoutError` carrying `str(e)`, or another exception carrying
`str(e)`. -/
inductive ActOutcome where
  | ok
  | timeoutE (msg : String)
  | err (msg : String)
deriving DecidableEq, Repr

/-- Mutable state of a `BrowserInteractionAgent` relevant to
`execute_command`: the element map and the registered secrets
(`register_secret`, lines 18-19, appends to / updates the dict). -/
structure AgentState where
  element_map : List (String × DistilledElement)
  secrets : List (String × String)
deriving DecidableEq, Repr

/-- Environment describing everything the browser does during one
`execute_command` call: clock readings, page-URL reads at each point the
code reads `self.page.url`, and outcomes of the action calls.  The `fill`
outcome may depend on the text delivered to it. -/
structure ExecEnv where
  startTime : Nat
  initialUrl : String
  passes : Nat → PassEnv
  urlAtResolveFail : String
  clickClock : Nat
  clickOutcome : ActOutcome
  urlAfterClick : String
  urlAfterClickFail : String
  fillClock : Nat
  fillOutcome : String → ActOutcome
  urlAfterFill : String
  urlAfterFillFail : String
  gotoOutcome : ActOutcome
  urlAfterGoto : String
  urlAfterGotoFail : String
  urlAtCatch : String

/-- Lines 249-252: walk the registered secrets in dict order; each
placeholder present in the current text has all its occurrences replaced by
the registered value.  (The `is_secret` flag set there only suppresses an
empty verification block and has no observable effect.) -/
def substituteSecrets (secrets : List (String × String)) (text : String) : String :=
  secrets.foldl (fun acc kv => if pyIn kv.1 acc then pyReplace acc kv.1 kv.2 else acc) text

/-- The 20-second budget of `execute_command` (line 177), in abstract
second units. -/
def timeout_budget : Nat := 20

/-- Body of `execute_command` (browser_interaction.py lines 182-289), i.e.
everything inside the outer `try`.  `Except.error msg` models an exception
reaching the outer handler (the trace accumulated before such an exception
is not tracked).  The trailing "Unknown command" return (line 297) is
unreachable for the three-valued `ActionType` enum and has no counterpart
here. -/
def executeBody (st : AgentState) (command : BrowserCommand) (env : ExecEnv) :
    Except String (InteractionResult × List BrowserCall) :=
  let deadline := env.startTime + timeout_budget
  match command.action_type with
  | .CLICK =>
    if !pyTruthyOptStr command.element_id then
      .ok ({ success := false, action := command.action_type,
             failure_kind := some .GENERIC_ERROR,
             failure_reason := some "Missing element_id" }, [])
    else
      let eid := command.element_id.getD ""
      let rr := resolve_locator_with_retries deadline eid st.element_map env.passes
      match renderResolve eid rr.1 with
      | .error msg => .error msg
      | .ok (none, error) =>
        .ok ({ success := false, action := command.action_type,
               element_id := command.element_id,
               failure_kind := some (if pyIn "multiple" (error.getD "") then
                 .AMBIGUOUS_LOCATOR else .TIMEOUT_OR_STUCK),
               failure_reason := error,
               url_after := some env.urlAtResolveFail }, rr.2.2)
      | .ok (some (strategy, spec), _) =>
        let remaining_ms := (deadline - env.clickClock) * 1000
        match env.clickOutcome with
        | .ok =>
          .ok ({ success := true, action := command.action_type,
                 element_id := command.element_id,
                 locator_kind := some strategy,
                 url_after := some env.urlAfterClick,
                 progress_signal := some (if !(env.urlAfterClick == env.initialUrl) then
                   "url_change" else "click_success") },
               rr.2.2 ++ [.click spec remaining_ms, .waitLoadState 2000])
        | .timeoutE _ =>
          .ok ({ success := false, action := command.action_type,
                 element_id := command.element_id,
                 locator_kind := some strategy,
                 url_after := some env.urlAfterClickFail,
                 failure_kind := some .TIMEOUT_OR_STUCK,
                 failure_reason := some "Click timed out" },
               rr.2.2 ++ [.click spec remaining_ms])
        | .err msg =>
          .ok ({ success := false, action := command.action_type,
                 element_id := command.element_id,
                 locator_kind := some strategy,
                 url_after := some env.urlAfterClickFail,
                 failure_kind := some .GENERIC_ERROR,
                 failure_reason := some msg },
               rr.2.2 ++ [.click spec remaining_ms])
  | .TYPE =>
    if !pyTruthyOptStr command.element_id || command.text_content.isNone then
      .ok ({ success := false, action := command.action_type,
             failure_kind := some .GENERIC_ERROR,
             failure_reason := some "Missing id or text" }, [])
    else
      let eid := command.element_id.getD ""
      let rr := resolve_locator_with_retries deadline eid st.element_map env.passes
      match renderResolve eid rr.1 with
      | .error msg => .error msg
      | .ok (none, error) =>
        .ok ({ success := false, action := command.action_type,
               element_id := command.element_id,
               failure_kind := some .TIMEOUT_OR_STUCK,
               failure_reason := error,
               url_after := some env.urlAtResolveFail }, rr.2.2)
      | .ok (some (strategy, spec), _) =>
        let text_to_type := substituteSecrets st.secrets (command.text_content.getD "")
        let remaining_ms := (deadline - env.fillClock) * 1000
        match env.fillOutcome text_to_type with
        | .ok =>
          .ok ({ success := true, action := command.action_type,
                 element_id := command.element_id,
                 locator_kind := some strategy,
                 url_after := some env.urlAfterFill,
                 progress_signal := some "input_filled" },
               rr.2.2 ++ [.fill spec text_to_type remaining_ms])
        | .timeoutE _ =>
          .ok ({ success := false, action := command.action_type,
                 element_id := command.element_id,
                 locator_kind := some strategy,
                 url_after := some env.urlAfterFillFail,
                 failure_kind := some .TIMEOUT_OR_STUCK,
                 failure_reason := some "Type timed out" },
               rr.2.2 ++ [.fill spec text_to_type remaining_ms])
        | .err msg => .error msg
  | .NAVIGATE =>
    if !pyTruthyOptStr command.url then
      .ok ({ success := false, action := command.action_type,
             failure_kind := some .GENERIC_ERROR,
             failure_reason := some "Missing URL" }, [])
    else
      let u := command.url.getD ""
      match env.gotoOutcome with
      | .ok =>
        .ok ({ success := true, action := command.action_type,
               url_after := some env.urlAfterGoto,
               progress_signal := some "navigation" },
             [.goto u (timeout_budget * 1000)])
      | .timeoutE msg =>
        .ok ({ success := false, action := command.action_type,
               url_after := some env.urlAfterGotoFail,
               failure_kind := some .GENERIC_ERROR,
               failure_reason := some msg },
             [.goto u (timeout_budget * 1000)])
      | .err msg =>
        .ok ({ success := false, action := command.action_type,
               url_after := some env.urlAfterGotoFail,
               failure_kind := some .GENERIC_ERROR,
               failure_reason := some msg },
             [.goto u (timeout_budget * 1000)])

/-- Mirrors `execute_command` (lines 175-297): the body runs under the
outer `try`, and any exception reaching it is converted to a
`GENERIC_ERROR` result (lines 291-295). -/
def execute_command (st : AgentState) (command : BrowserCommand) (env : ExecEnv) :
    InteractionResult × List BrowserCall :=
  match executeBody st command env with
  | .ok rc => rc
  | .error msg =>
    ({ success := false, action := command.action_type,
       url_after := some env.urlAtCatch,
       failure_kind := some .GENERIC_ERROR,
       failure_reason := some ("Unexpected error: " ++ msg) }, [])

/-! ### Theorems about the element map (claim C10) -/

theorem dict_get_insert {α : Type} (m : List (String × α)) (k k' : String) (v : α) :
    dict_get (dict_insert m k v) k' = if k' = k then some v else dict_get m k' := by
  induction m with
  | nil =>
    by_cases h : k' = k
    · subst h; simp [dict_insert, dict_get, List.find?]
    · have hb : (k == k') = false := beq_eq_false_iff_ne.mpr (fun hh => h hh.symm)
      simp [dict_insert, dict_get, List.find?, hb, h]
  | cons p rest ih =>
    by_cases hpk : p.1 = k
    · have hb : (p.1 == k) = true := beq_iff_eq.mpr hpk
      by_cases h : k' = k
      · subst h
        simp [dict_insert, hb, dict_get, List.find?]
      · have hb2 : (k == k') = false := beq_eq_false_iff_ne.mpr (fun hh => h hh.symm)
        have hb3 : (p.1 == k') = false :=
          beq_eq_false_iff_ne.mpr (fun hh => h (hh ▸ hpk ▸ rfl))
        simp [dict_insert, hb, dict_get, List.find?, hb2, hb3, h]
    · have hb : (p.1 == k) = false := beq_eq_false_iff_ne.mpr hpk
      by_cases h2 : p.1 = k'
      · have hb2 : (p.1 == k') = true := beq_iff_eq.mpr h2
        have hkk : ¬k' = k := fun hh => hpk (h2 ▸ hh ▸ rfl)
        simp [dict_insert, hb, dict_get, List.find?, hb2, hkk]
      · have hb2 : (p.1 == k') = false := beq_eq_false_iff_ne.mpr h2
        simp only [dict_insert, hb, Bool.false_eq_true, if_false]
        simp only [dict_get, List.find?, hb2] at ih ⊢
        exact ih

theorem dict_get_foldl_update (es : List DistilledElement)
    (m : List (String × DistilledElement)) (k : String) :
    dict_get (es.foldl (fun m el => dict_insert m el.element_id el) m) k
      = ((es.reverse.find? (fun el => el.element_id == k)).or (dict_get m k)) := by
  induction es generalizing m with
  | nil => simp
  | cons e tl ih =>
    simp only [List.foldl_cons, List.reverse_cons, List.find?_append]
    rw [ih, dict_get_insert]
    rcases hfind : tl.reverse.find? (fun el => el.element_id == k) with _ | el
    · by_cases h : e.element_id = k
      · have hb : (e.element_id == k) = true := beq_iff_eq.mpr h
        simp [List.find?, hb, h, hfind]
      · have hb : (e.element_id == k) = false := beq_eq_false_iff_ne.mpr h
        have hne : ¬k = e.element_id := fun hh => h hh.symm
        simp [List.find?, hb, hne, hfind]
    · simp [hfind]

/-- Claim C10: `update_map` replaces the descriptor store wholesale; the
resulting store maps a key to the last descriptor in list order carrying
that `element_id`, its key set is exactly the set of `element_id`s occurring
in the input list, and nothing of any previous store survives (the result
is a function of the input list alone). -/
theorem c10_update_map_wholesale (elements : List DistilledElement) (k : String) :
    dict_get (update_map elements) k
        = elements.reverse.find? (fun el => el.element_id == k)
      ∧ (dict_mem (update_map elements) k = true
          ↔ k ∈ elements.map DistilledElement.element_id) := by
  have hmain : dict_get (update_map elements) k
      = elements.reverse.find? (fun el => el.element_id == k) := by
    rw [update_map, dict_get_foldl_update]
    simp [dict_get]
  refine ⟨hmain, ?_⟩
  rw [dict_mem, hmain]
  simp [List.find?_isSome, beq_iff_eq]

/-! ### Theorems about the strategy generator (claim C7) -/

theorem firstIdLocator_eq_find (attrs : List (String × String)) (keys : List String) :
    firstIdLocator attrs keys
      = match keys.find? (fun key => dict_mem attrs key) with
        | some key => [(.DISTILLED_ID, .cssAttr key ((dict_get attrs key).getD ""))]
        | none => [] := by
  induction keys with
  | nil => simp [firstIdLocator]
  | cons key keys ih =>
    rcases hget : dict_get attrs key with _ | val
    · have hm : dict_mem attrs key = false := by simp [dict_mem, hget]
      simp [firstIdLocator, hget, List.find?, hm, ih]
    · have hm : dict_mem attrs key = true := by simp [dict_mem, hget]
      simp [firstIdLocator, hget, List.find?, hm]

theorem testIdLocators_eq_filter (attrs : List (String × String)) (keys : List String) :
    testIdLocators attrs keys
      = (keys.filter (fun key => dict_mem attrs key)).map
          (fun key => (.TEST_ID, .cssAttr key ((dict_get attrs key).getD ""))) := by
  induction keys with
  | nil => simp [testIdLocators]
  | cons key keys ih =>
    rcases hget : dict_get attrs key with _ | val
    · have hm : dict_mem attrs key = false := by simp [dict_mem, hget]
      simp [testIdLocators, hget, List.filter, hm, ih]
    · have hm : dict_mem attrs key = true := by simp [dict_mem, hget]
      simp [testIdLocators, hget, List.filter, hm, ih]

/-- Claim C7: the generator returns its candidates as five groups in the
fixed order DISTILLED_ID, TEST_ID, ARIA_ROLE, TEXT, CSS.  The DISTILLED_ID
group holds at most the first preference-list attribute present (stop at
first match, via `find?`), the TEST_ID group holds one candidate per
matching test attribute (via `filter`), each remaining group carries only
its own strategy kind and is empty unless the descriptor carries the
relevant field (truthy role / non-blank text / selector hints).  The
generator is a pure function of the descriptor: it makes no `BrowserCall`
and consults no page state. -/
theorem c7_generator_groups (element : DistilledElement) :
    get_locators_for_distilled_element element
      = (match ["data-mark-id", "data-element-id", "id"].find?
            (fun key => dict_mem (attrsOf element) key) with
         | some key => [(.DISTILLED_ID, .cssAttr key ((dict_get (attrsOf element) key).getD ""))]
         | none => []) ++
        ((["data-testid", "data-test", "data-qa"].filter
            (fun key => dict_mem (attrsOf element) key)).map
          (fun key => (.TEST_ID, .cssAttr key ((dict_get (attrsOf element) key).getD "")))) ++
        ariaLocators element ++ textLocators element ++ cssLocators element
    ∧ (∀ x ∈ ariaLocators element, x.1 = LocatorStrategy.ARIA_ROLE)
    ∧ (∀ x ∈ textLocators element, x.1 = LocatorStrategy.TEXT)
    ∧ (∀ x ∈ cssLocators element, x.1 = LocatorStrategy.CSS)
    ∧ (ariaLocators element ≠ [] → pyTruthyOptStr element.role = true)
    ∧ (textLocators element ≠ [] → pyTruthyOptStr element.text = true)
    ∧ (cssLocators element ≠ [] → pyTruthyOptList element.selector_hints = true) := by
  refine ⟨?_, ?_, ?_, ?_, ?_, ?_, ?_⟩
  · rw [get_locators_for_distilled_element]
    rcases hattrs : element.attributes with _ | attrs
    · simp [pyTruthyOptList, attrsOf, hattrs, firstIdLocator_eq_find,
        testIdLocators_eq_filter, dict_mem, dict_get, List.find?]
    · rcases attrs with _ | ⟨p, rest⟩
      · simp [pyTruthyOptList, attrsOf, hattrs, firstIdLocator_eq_find,
          testIdLocators_eq_filter, dict_mem, dict_get, List.find?]
      · simp [pyTruthyOptList, attrsOf, hattrs, firstIdLocator_eq_find,
          testIdLocators_eq_filter]
  · intro x hx
    rw [ariaLocators] at hx
    rcases hrole : element.role with _ | role
    · simp [hrole] at hx
    · simp only [hrole] at hx
      by_cases hr : role = ""
      · subst hr; simp at hx
      · simp only [beq_eq_false_iff_ne.mpr hr, Bool.false_eq_true, if_false] at hx
        rcases List.mem_append.mp hx with hx | hx
        · simp at hx; simp [hx]
        · split at hx <;> simp at hx
          simp [hx]
  · intro x hx
    rw [textLocators] at hx
    rcases htext : element.text with _ | t
    · simp [htext] at hx
    · simp only [htext] at hx
      split at hx <;> simp at hx
      rcases hx with hx | hx <;> simp [hx]
  · intro x hx
    rw [cssLocators] at hx
    rcases hh : element.selector_hints with _ | hints
    · simp [hh] at hx
    · simp only [hh] at hx
      rcases List.mem_map.mp hx with ⟨sel, hsel, hx⟩
      simp [← hx]
  · intro hne
    rw [ariaLocators] at hne
    rcases hrole : element.role with _ | role
    · simp [hrole] at hne
    · simp only [hrole] at hne
      by_cases hr : role = ""
      · subst hr; simp at hne
      · simp [pyTruthyOptStr, hrole, beq_eq_false_iff_ne.mpr hr]
  · intro hne
    rw [textLocators] at hne
    rcases htext : element.text with _ | t
    · simp [htext] at hne
    · simp only [htext] at hne
      by_cases ht : t = ""
      · subst ht; simp at hne
      · simp [pyTruthyOptStr, htext, beq_eq_false_iff_ne.mpr ht]
  · intro hne
    rw [cssLocators] at hne
    rcases hh : element.selector_hints with _ | hints
    · simp [hh] at hne
    · rcases hints with _ | ⟨s, rest⟩
      · simp [hh] at hne
      · simp [pyTruthyOptList, hh]

/-! ### Theorems about one resolution pass (claim C5) -/

/-- Selectors observed with more than one match while probing a strategy
list starting at probe index `s`, in probe order. -/
def ambSelectors (pe : PassEnv) : List (LocatorStrategy × LocatorSpec) → Nat → List String
  | [], _ => []
  | (strategy, spec) :: rest, i =>
    (match pe.probes i with
     | .counted n _ => if n > 1 then [locatorStr spec] else []
     | .exn => []) ++ ambSelectors pe rest (i + 1)

/-- Trace entries that correspond to a `loc.count()` probe of a strategy. -/
def isProbeCount : BrowserCall → Bool
  | .probeCount _ _ => true
  | _ => false

theorem getLast?_cons_or {α : Type} (x : α) (l : List α) :
    (x :: l).getLast? = l.getLast?.or (some x) := by
  induction l generalizing x with
  | nil => rfl
  | cons y tl ih =>
    rw [List.getLast?_cons_cons, ih y]
    rcases h : tl.getLast? with _ | z <;> simp [Option.or]

theorem runPass_found_general (deadline : Nat) (pe : PassEnv)
    (strats : List (LocatorStrategy × LocatorSpec)) :
    ∀ (s : Nat) (acc : Option String) (i₀ : Nat) (h : i₀ < strats.length),
    (∀ i, pe.probeClock i < deadline) →
    pe.probes (s + i₀) = .counted 1 (some true) →
    (∀ j, j < i₀ → pe.probes (s + j) ≠ .counted 1 (some true)) →
    (runPass deadline pe strats s acc).1
        = .found (strats.get ⟨i₀, h⟩).1 (strats.get ⟨i₀, h⟩).2
      ∧ (runPass deadline pe strats s acc).2.1
        = ((ambSelectors pe (strats.take i₀) s).getLast?).or acc
      ∧ ((runPass deadline pe strats s acc).2.2.countP isProbeCount) = i₀ + 1 := by
  induction strats with
  | nil => intro s acc i₀ h; exact absurd h (Nat.not_lt_zero i₀)
  | cons st rest ih =>
    intro s acc i₀ h hclk hUV hne
    have hclks : ¬deadline ≤ pe.probeClock s := Nat.not_le.mpr (hclk s)
    rcases i₀ with _ | j
    · have hp : pe.probes s = .counted 1 (some true) := by simpa using hUV
      simp [runPass, hclks, hp, List.countP, List.countP.go, isProbeCount, ambSelectors]
    · have hne0 : pe.probes s ≠ .counted 1 (some true) := by
        have := hne 0 (Nat.succ_pos j)
        simpa using this
      have h' : j < rest.length := Nat.lt_of_succ_lt_succ h
      have hshift : s + 1 + j = s + (j + 1) := by omega
      have hUV' : pe.probes (s + 1 + j) = .counted 1 (some true) := by
        rw [hshift]; exact hUV
      have hne' : ∀ i, i < j → pe.probes (s + 1 + i) ≠ .counted 1 (some true) := by
        intro i hij
        have : s + 1 + i = s + (i + 1) := by omega
        rw [this]
        exact hne (i + 1) (Nat.succ_lt_succ hij)
      have IH := ih (s + 1) acc j h' hclk hUV' hne'
      rcases hp : pe.probes s with _ | ⟨n, vis⟩
      · simp only [runPass, hclks, if_neg, hp]
        refine ⟨IH.1, ?_, ?_⟩
        · rw [IH.2.1]
          simp [ambSelectors, hp]
        · simpa [List.countP_cons, isProbeCount] using IH.2.2
      · rcases n with _ | _ | m
        · simp only [runPass, hclks, if_neg, hp]
          have hz : ((0 : Nat) == 0) = true := rfl
          simp only [hz, if_true]
          refine ⟨IH.1, ?_, ?_⟩
          · rw [IH.2.1]
            simp [ambSelectors, hp]
          · simpa [List.countP_cons, isProbeCount] using IH.2.2
        · rcases vis with _ | b
          · simp only [runPass, hclks, if_neg, hp]
            simp only [show ((1 : Nat) == 0) = false from rfl, if_false,
              show ¬(1 : Nat) > 1 from by omega, if_neg, Bool.false_eq_true]
            refine ⟨IH.1, ?_, ?_⟩
            · rw [IH.2.1]
              simp [ambSelectors, hp]
            · simpa [List.countP_cons, isProbeCount] using IH.2.2
          · rcases b with _ | _
            · simp only [runPass, hclks, if_neg, hp]
              simp only [show ((1 : Nat) == 0) = false from rfl, if_false,
                show ¬(1 : Nat) > 1 from by omega, if_neg, Bool.false_eq_true]
              refine ⟨IH.1, ?_, ?_⟩
              · rw [IH.2.1]
                simp [ambSelectors, hp]
              · simpa [List.countP_cons, isProbeCount] using IH.2.2
            · exact absurd hp hne0
        · have hgt : m + 1 + 1 > 1 := by omega
          simp only [runPass, hclks, if_neg, hp]
          simp only [show ((m + 1 + 1 : Nat) == 0) = false from by simp, if_false,
            hgt, if_true, Bool.false_eq_true]
          have IH2 := ih (s + 1) (some (locatorStr st.2)) j h' hclk hUV' hne'
          refine ⟨IH2.1, ?_, ?_⟩
          · rw [IH2.2.1]
            have : ambSelectors pe ((st :: rest).take (j + 1)) s
                = locatorStr st.2 :: ambSelectors pe (rest.take j) (s + 1) := by
              rcases st with ⟨stA, stB⟩
              simp [ambSelectors, hp, hgt]
            rw [this, getLast?_cons_or, Option.or_assoc]
            simp
          · simpa [List.countP_cons, isProbeCount] using IH2.2.2

theorem runPass_exhausted_general (deadline : Nat) (pe : PassEnv)
    (strats : List (LocatorStrategy × LocatorSpec)) :
    ∀ (s : Nat) (acc : Option String),
    (∀ i, pe.probeClock i < deadline) →
    (∀ j, j < strats.length → pe.probes (s + j) ≠ .counted 1 (some true)) →
    (runPass deadline pe strats s acc).1 = .exhausted
      ∧ (runPass deadline pe strats s acc).2.1
        = ((ambSelectors pe strats s).getLast?).or acc
      ∧ ((runPass deadline pe strats s acc).2.2.countP isProbeCount) = strats.length := by
  induction strats with
  | nil => intro s acc hclk hne; simp [runPass, ambSelectors]
  | cons st rest ih =>
    intro s acc hclk hne
    have hclks : ¬deadline ≤ pe.probeClock s := Nat.not_le.mpr (hclk s)
    have hne0 : pe.probes s ≠ .counted 1 (some true) := by
      have := hne 0 (Nat.succ_pos rest.length)
      simpa using this
    have hne' : ∀ i, i < rest.length → pe.probes (s + 1 + i) ≠ .counted 1 (some true) := by
      intro i hij
      have : s + 1 + i = s + (i + 1) := by omega
      rw [this]
      exact hne (i + 1) (Nat.succ_lt_succ hij)
    rcases hp : pe.probes s with _ | ⟨n, vis⟩
    · have IH := ih (s + 1) acc hclk hne'
      simp only [runPass, hclks, if_neg, hp]
      refine ⟨IH.1, ?_, ?_⟩
      · rw [IH.2.1]; simp [ambSelectors, hp]
      · simpa [List.countP_cons, isProbeCount] using IH.2.2
    · rcases n with _ | _ | m
      · have IH := ih (s + 1) acc hclk hne'
        simp only [runPass, hclks, if_neg, hp]
        simp only [show ((0 : Nat) == 0) = true from rfl, if_true]
        refine ⟨IH.1, ?_, ?_⟩
        · rw [IH.2.1]; simp [ambSelectors, hp]
        · simpa [List.countP_cons, isProbeCount] using IH.2.2
      · rcases vis with _ | b
        · have IH := ih (s + 1) acc hclk hne'
          simp only [runPass, hclks, if_neg, hp]
          simp only [show ((1 : Nat) == 0) = false from rfl, if_false,
            show ¬(1 : Nat) > 1 from by omega, if_neg, Bool.false_eq_true]
          refine ⟨IH.1, ?_, ?_⟩
          · rw [IH.2.1]; simp [ambSelectors, hp]
          · simpa [List.countP_cons, isProbeCount] using IH.2.2
        · rcases b with _ | _
          · have IH := ih (s + 1) acc hclk hne'
            simp only [runPass, hclks, if_neg, hp]
            simp only [show ((1 : Nat) == 0) = false from rfl, if_false,
              show ¬(1 : Nat) > 1 from by omega, if_neg, Bool.false_eq_true]
            refine ⟨IH.1, ?_, ?_⟩
            · rw [IH.2.1]; simp [ambSelectors, hp]
            · simpa [List.countP_cons, isProbeCount] using IH.2.2
          · exact absurd hp hne0
      · have hgt : m + 1 + 1 > 1 := by omega
        have IH := ih (s + 1) (some (locatorStr st.2)) hclk hne'
        simp only [runPass, hclks, if_neg, hp]
        simp only [show ((m + 1 + 1 : Nat) == 0) = false from by simp, if_false,
          hgt, if_true, Bool.false_eq_true]
        refine ⟨IH.1, ?_, ?_⟩
        · rw [IH.2.1]
          have : ambSelectors pe (st :: rest) s
              = locatorStr st.2 :: ambSelectors pe rest (s + 1) := by
            rcases st with ⟨stA, stB⟩
            simp [ambSelectors, hp, hgt]
          rw [this, getLast?_cons_or, Option.or_assoc]
          simp
        · simpa [List.countP_cons, isProbeCount] using IH.2.2

/-- Claim C5: within one pass over the strategy list (with the deadline
never reached at a probe), a zero-match strategy is skipped, a strategy
with more than one match only overwrites the recorded ambiguous selector
(the returned record is the LAST selector observed with cardinality > 1,
via `getLast?`), and the first strategy whose probe reports exactly one
visible element is returned immediately with its strategy kind, exactly
`i₀ + 1` strategies having been probed (none after it); if no strategy
reports a unique visible match, every strategy is probed and the pass ends
exhausted with the last ambiguous selector recorded. -/
theorem c5_single_pass (deadline : Nat) (pe : PassEnv)
    (strats : List (LocatorStrategy × LocatorSpec))
    (hclk : ∀ i, pe.probeClock i < deadline) :
    (∀ (i₀ : Nat) (h : i₀ < strats.length),
      pe.probes i₀ = .counted 1 (some true) →
      (∀ j, j < i₀ → pe.probes j ≠ .counted 1 (some true)) →
      (runPass deadline pe strats 0 none).1
          = .found (strats.get ⟨i₀, h⟩).1 (strats.get ⟨i₀, h⟩).2
        ∧ (runPass deadline pe strats 0 none).2.1
          = (ambSelectors pe (strats.take i₀) 0).getLast?
        ∧ ((runPass deadline pe strats 0 none).2.2.countP isProbeCount) = i₀ + 1)
    ∧ ((∀ j, j < strats.length → pe.probes j ≠ .counted 1 (some true)) →
      (runPass deadline pe strats 0 none).1 = .exhausted
        ∧ (runPass deadline pe strats 0 none).2.1
          = (ambSelectors pe strats 0).getLast?
        ∧ ((runPass deadline pe strats 0 none).2.2.countP isProbeCount) = strats.length) := by
  constructor
  · intro i₀ h hUV hne
    have := runPass_found_general deadline pe strats 0 none i₀ h hclk
      (by simpa using hUV) (by intro j hj; simpa using hne j hj)
    rcases this with ⟨h1, h2, h3⟩
    refine ⟨h1, ?_, h3⟩
    rw [h2]
    rcases hlast : (ambSelectors pe (strats.take i₀) 0).getLast? with _ | z <;> simp
  · intro hne
    have := runPass_exhausted_general deadline pe strats 0 none hclk
      (by intro j hj; simpa using hne j hj)
    rcases this with ⟨h1, h2, h3⟩
    refine ⟨h1, ?_, h3⟩
    rw [h2]
    rcases hlast : (ambSelectors pe strats 0).getLast? with _ | z <;> simp

/-! ### Theorems about the retry loop (claim C6) -/

/-- Trace invariant of one `resolveLoop` call: every executed pass started
under the deadline with the environment clock of its index; the pass at the
entry index carries the caller-supplied sleep/refresh annotations; every
later pass was preceded by the backoff drawn in order from `bs` (which fit
inside the deadline) and by a perception refresh. -/
def PassRecOk (deadline : Nat) (env : Nat → PassEnv) (bs : List Nat) (k : Nat)
    (slept : Option Nat) (refreshed : Bool) (r : PassRec) : Prop :=
  r.startClock = (env r.idx).clockAtStart
  ∧ r.startClock < deadline
  ∧ (r.idx = k → r.sleptBefore = slept ∧ r.refreshedBefore = refreshed)
  ∧ (k < r.idx →
      r.sleptBefore = some (bs.getD (r.idx - k - 1) 0)
      ∧ r.refreshedBefore = true
      ∧ (env (r.idx - 1)).clockAtRetryCheck + bs.getD (r.idx - k - 1) 0 ≤ deadline)

theorem trace_single (deadline : Nat) (env : Nat → PassEnv) (bs : List Nat) (k : Nat)
    (slept : Option Nat) (refreshed : Bool) (hlt : (env k).clockAtStart < deadline) :
    ([(⟨k, (env k).clockAtStart, slept, refreshed⟩ : PassRec)]).length ≤ bs.length + 1
    ∧ ([(⟨k, (env k).clockAtStart, slept, refreshed⟩ : PassRec)]).map PassRec.idx
        = List.range' k ([(⟨k, (env k).clockAtStart, slept, refreshed⟩ : PassRec)]).length
    ∧ ∀ r ∈ [(⟨k, (env k).clockAtStart, slept, refreshed⟩ : PassRec)],
        PassRecOk deadline env bs k slept refreshed r := by
  refine ⟨by simp, by simp [List.range'], ?_⟩
  intro r hr
  have hre : r = ⟨k, (env k).clockAtStart, slept, refreshed⟩ := by simpa using hr
  subst hre
  exact ⟨rfl, hlt, fun _ => ⟨rfl, rfl⟩, fun hk => absurd hk (Nat.lt_irrefl k)⟩

theorem trace_cons_step (deadline : Nat) (env : Nat → PassEnv) (b : Nat) (rest : List Nat)
    (k : Nat) (slept : Option Nat) (refreshed : Bool) (recs2 : List PassRec)
    (hlt : (env k).clockAtStart < deadline)
    (hfit : ¬deadline < (env k).clockAtRetryCheck + b)
    (hlen : recs2.length ≤ rest.length + 1)
    (hmap : recs2.map PassRec.idx = List.range' (k + 1) recs2.length)
    (hok : ∀ r ∈ recs2, PassRecOk deadline env rest (k + 1) (some b) true r) :
    ((⟨k, (env k).clockAtStart, slept, refreshed⟩ : PassRec) :: recs2).length
        ≤ (b :: rest).length + 1
    ∧ ((⟨k, (env k).clockAtStart, slept, refreshed⟩ : PassRec) :: recs2).map PassRec.idx
        = List.range' k ((⟨k, (env k).clockAtStart, slept, refreshed⟩ : PassRec) :: recs2).length
    ∧ ∀ r ∈ (⟨k, (env k).clockAtStart, slept, refreshed⟩ : PassRec) :: recs2,
        PassRecOk deadline env (b :: rest) k slept refreshed r := by
  refine ⟨by simp; omega, ?_, ?_⟩
  · simp only [List.map_cons, List.length_cons, List.range'_succ]
    rw [hmap]
  · intro r hr
    rcases List.mem_cons.mp hr with hr | hr
    · subst hr
      exact ⟨rfl, hlt, fun _ => ⟨rfl, rfl⟩, fun hk => absurd hk (Nat.lt_irrefl k)⟩
    · have hidx : k + 1 ≤ r.idx := by
        have hmem : r.idx ∈ recs2.map PassRec.idx := List.mem_map_of_mem PassRec.idx hr
        rw [hmap] at hmem
        obtain ⟨i, hi, hieq⟩ := List.mem_range'.mp hmem
        omega
      rcases hok r hr with ⟨h1, h2, h3, h4⟩
      refine ⟨h1, h2, fun hk => absurd hk (by omega), fun hk => ?_⟩
      by_cases heq : r.idx = k + 1
      · have hh := h3 heq
        have hz : r.idx - k - 1 = 0 := by omega
        have hz2 : r.idx - 1 = k := by omega
        rw [hz, hz2]
        exact ⟨by simpa using hh.1, hh.2, by simpa using Nat.not_lt.mp hfit⟩
      · have hgt : k + 1 < r.idx := by omega
        have hh := h4 hgt
        have hz : r.idx - k - 1 = (r.idx - (k + 1) - 1) + 1 := by omega
        rw [hz]
        refine ⟨by simpa using hh.1, hh.2.1, ?_⟩
        have hz2 : (r.idx - (k + 1) - 1) + 1 + 1 = r.idx - k := by omega
        simpa using hh.2.2

theorem resolveLoop_trace (deadline : Nat) (eid : String) (env : Nat → PassEnv) :
    ∀ (bs : List Nat) (k : Nat) (emap : List (String × DistilledElement))
      (lastAmb : Option String) (slept : Option Nat) (refreshed : Bool),
    (resolveLoop deadline eid env bs k emap lastAmb slept refreshed).2.1.length ≤ bs.length + 1
    ∧ (resolveLoop deadline eid env bs k emap lastAmb slept refreshed).2.1.map PassRec.idx
      = List.range' k (resolveLoop deadline eid env bs k emap lastAmb slept refreshed).2.1.length
    ∧ ∀ r ∈ (resolveLoop deadline eid env bs k emap lastAmb slept refreshed).2.1,
        PassRecOk deadline env bs k slept refreshed r := by
  intro bs
  induction bs with
  | nil =>
    intro k emap lastAmb slept refreshed
    rw [resolveLoop]
    by_cases hstart : deadline ≤ (env k).clockAtStart
    · simp [hstart]
    · have hlt : (env k).clockAtStart < deadline := Nat.lt_of_not_le hstart
      simp only [hstart, if_false]
      rcases hget : dict_get emap eid with _ | d
      · simp only [hget]
        rcases hperc : (env k).perceiveAtStart with msg | els
        · simp only [hperc]
          exact trace_single deadline env [] k slept refreshed hlt
        · simp only [hperc]
          rcases hget2 : dict_get (update_map els) eid with _ | d
          · simp only [hget2]
            exact trace_single deadline env [] k slept refreshed hlt
          · simp only [hget2]
            rcases hpr : (runPass deadline (env k)
                (get_locators_for_distilled_element d) 0 lastAmb).1 with ⟨strategy, spec⟩ | _ <;>
              simp only [hpr] <;>
              exact trace_single deadline env [] k slept refreshed hlt
      · simp only [hget]
        rcases hpr : (runPass deadline (env k)
            (get_locators_for_distilled_element d) 0 lastAmb).1 with ⟨strategy, spec⟩ | _ <;>
          simp only [hpr] <;>
          exact trace_single deadline env [] k slept refreshed hlt
  | cons b rest ih =>
    intro k emap lastAmb slept refreshed
    rw [resolveLoop]
    by_cases hstart : deadline ≤ (env k).clockAtStart
    · simp [hstart]
    · have hlt : (env k).clockAtStart < deadline := Nat.lt_of_not_le hstart
      simp only [hstart, if_false]
      rcases hget : dict_get emap eid with _ | d
      · simp only [hget]
        rcases hperc : (env k).perceiveAtStart with msg | els
        · simp only [hperc]
          exact trace_single deadline env (b :: rest) k slept refreshed hlt
        · simp only [hperc]
          rcases hget2 : dict_get (update_map els) eid with _ | d
          · simp only [hget2]
            exact trace_single deadline env (b :: rest) k slept refreshed hlt
          · simp only [hget2]
            rcases hpr : (runPass deadline (env k)
                (get_locators_for_distilled_element d) 0 lastAmb).1 with ⟨strategy, spec⟩ | _
            · simp only [hpr]
              exact trace_single deadline env (b :: rest) k slept refreshed hlt
            · simp only [hpr]
              by_cases hfit : deadline < (env k).clockAtRetryCheck + b
              · simp only [hfit, if_true]
                exact trace_single deadline env (b :: rest) k slept refreshed hlt
              · simp only [hfit, if_false]
                rcases hperc2 : (env k).perceiveAtRetry with msg | els2
                · simp only [hperc2]
                  exact trace_single deadline env (b :: rest) k slept refreshed hlt
                · simp only [hperc2]
                  have IH := ih (k + 1) (update_map els2)
                    (runPass deadline (env k)
                      (get_locators_for_distilled_element d) 0 lastAmb).2.1 (some b) true
                  exact trace_cons_step deadline env b rest k slept refreshed _
                    hlt hfit IH.1 IH.2.1 IH.2.2
      · simp only [hget]
        rcases hpr : (runPass deadline (env k)
            (get_locators_for_distilled_element d) 0 lastAmb).1 with ⟨strategy, spec⟩ | _
        · simp only [hpr]
          exact trace_single deadline env (b :: rest) k slept refreshed hlt
        · simp only [hpr]
          by_cases hfit : deadline < (env k).clockAtRetryCheck + b
          · simp only [hfit, if_true]
            exact trace_single deadline env (b :: rest) k slept refreshed hlt
          · simp only [hfit, if_false]
            rcases hperc2 : (env k).perceiveAtRetry with msg | els2
            · simp only [hperc2]
              exact trace_single deadline env (b :: rest) k slept refreshed hlt
            · simp only [hperc2]
              have IH := ih (k + 1) (update_map els2)
                (runPass deadline (env k)
                  (get_locators_for_distilled_element d) 0 lastAmb).2.1 (some b) true
              exact trace_cons_step deadline env b rest k slept refreshed _
                hlt hfit IH.1 IH.2.1 IH.2.2

/-- Claim C6: resolution runs at most 4 passes (the initial pass plus at
most 3 retries), numbered consecutively from 0; every executed pass began
at a clock reading strictly below the deadline; the initial pass is
preceded by no sleep and no refresh; retry pass `j` is preceded by a sleep
of `[1, 2, 4][j - 1]` seconds and a fresh perception refresh, and such a
sleep happens only when it fits inside the deadline (the loop exits without
sleeping otherwise). -/
theorem c6_retry_discipline (deadline : Nat) (eid : String)
    (emap : List (String × DistilledElement)) (env : Nat → PassEnv) :
    (resolve_locator_with_retries deadline eid emap env).2.1.length ≤ 4
    ∧ (resolve_locator_with_retries deadline eid emap env).2.1.map PassRec.idx
      = List.range' 0 (resolve_locator_with_retries deadline eid emap env).2.1.length
    ∧ (∀ r ∈ (resolve_locator_with_retries deadline eid emap env).2.1,
        r.startClock = (env r.idx).clockAtStart ∧ r.startClock < deadline)
    ∧ (∀ r ∈ (resolve_locator_with_retries deadline eid emap env).2.1,
        r.idx = 0 → r.sleptBefore = none ∧ r.refreshedBefore = false)
    ∧ (∀ r ∈ (resolve_locator_with_retries deadline eid emap env).2.1,
        0 < r.idx →
          r.sleptBefore = some ([1, 2, 4].getD (r.idx - 1) 0)
          ∧ r.refreshedBefore = true
          ∧ (env (r.idx - 1)).clockAtRetryCheck + [1, 2, 4].getD (r.idx - 1) 0 ≤ deadline) := by
  have H := resolveLoop_trace deadline eid env [1, 2, 4] 0 emap none none false
  rw [resolve_locator_with_retries]
  refine ⟨H.1, H.2.1, ?_, ?_, ?_⟩
  · intro r hr
    exact ⟨(H.2.2 r hr).1, (H.2.2 r hr).2.1⟩
  · intro r hr h0
    exact (H.2.2 r hr).2.2.1 h0
  · intro r hr h0
    have hh := (H.2.2 r hr).2.2.2 h0
    simpa using hh

/-! ### Theorems about execute_command (claims C2, C3, C8, C9) -/

theorem executeBody_success_iff (st : AgentState) (cmd : BrowserCommand) (env : ExecEnv) :
    ∀ r calls, executeBody st cmd env = .ok (r, calls) →
      ((r.success = true) ↔ r.failure_kind = none) := by
  intro r calls h
  simp only [executeBody] at h
  repeat' split at h
  all_goals try exact Except.noConfusion h
  all_goals
    simp only [Except.ok.injEq, Prod.mk.injEq] at h
  all_goals
    obtain ⟨h1, h2⟩ := h
  all_goals subst h1
  all_goals simp

/-- Claim C2: every `InteractionResult` returned by `execute_command`, for
every command, agent state and environment of browser outcomes, has
`success = true` exactly when `failure_kind` is absent. -/
theorem c2_success_iff_no_failure_kind (st : AgentState) (cmd : BrowserCommand) (env : ExecEnv) :
    ((execute_command st cmd env).1.success = true)
      ↔ (execute_command st cmd env).1.failure_kind = none := by
  rw [execute_command]
  rcases hbody : executeBody st cmd env with msg | rc
  · simp
  · rcases rc with ⟨r, calls⟩
    simpa using executeBody_success_iff st cmd env r calls hbody

/-- Claim C3: `execute_command` always returns an `InteractionResult`; the
body may raise (modelled by `executeBody` returning `Except.error`), but
every such exception is caught by the outer handler and converted to a
result carrying `failure_kind = GENERIC_ERROR`, so nothing escapes. -/
theorem c3_never_raises (st : AgentState) (cmd : BrowserCommand) (env : ExecEnv) :
    ∃ r calls, execute_command st cmd env = (r, calls)
      ∧ (executeBody st cmd env = .ok (r, calls)
         ∨ ∃ msg, executeBody st cmd env = .error msg
            ∧ r.success = false
            ∧ r.failure_kind = some .GENERIC_ERROR
            ∧ r.failure_reason = some ("Unexpected error: " ++ msg)) := by
  rw [execute_command]
  rcases hbody : executeBody st cmd env with msg | rc
  · exact ⟨_, _, rfl, Or.inr ⟨msg, rfl, rfl, rfl, rfl⟩⟩
  · rcases rc with ⟨r, calls⟩
    exact ⟨r, calls, rfl, Or.inl rfl⟩

/-- Claim C8: a `Click` command whose `element_id` is absent (or empty,
which Python truthiness also treats as missing) returns an immediate
`GENERIC_ERROR` with reason "Missing element_id"; a `Type` command with a
missing/empty `element_id` or a `None` `text_content`, and a `Navigate`
command without a url, likewise return an immediate `GENERIC_ERROR`.  In
each case the result is the same for every environment and agent state and
the trace of browser calls is empty: no resolution and no browser action
happens. -/
theorem c8_missing_field_guards (st : AgentState) (env : ExecEnv) :
    (∀ (eidOpt tc url : Option String) (md : Option (List (String × String))),
      pyTruthyOptStr eidOpt = false →
      execute_command st ⟨.CLICK, eidOpt, tc, url, md⟩ env
        = ({ success := false, action := .CLICK, failure_kind := some .GENERIC_ERROR,
             failure_reason := some "Missing element_id" }, []))
    ∧ (∀ (eidOpt tc url : Option String) (md : Option (List (String × String))),
      pyTruthyOptStr eidOpt = false ∨ tc = none →
      execute_command st ⟨.TYPE, eidOpt, tc, url, md⟩ env
        = ({ success := false, action := .TYPE, failure_kind := some .GENERIC_ERROR,
             failure_reason := some "Missing id or text" }, []))
    ∧ (∀ (eidOpt tc url : Option String) (md : Option (List (String × String))),
      pyTruthyOptStr url = false →
      execute_command st ⟨.NAVIGATE, eidOpt, tc, url, md⟩ env
        = ({ success := false, action := .NAVIGATE, failure_kind := some .GENERIC_ERROR,
             failure_reason := some "Missing URL" }, [])) := by
  refine ⟨?_, ?_, ?_⟩
  · intro eidOpt tc url md hfalse
    rw [execute_command, executeBody]
    simp [hfalse]
  · intro eidOpt tc url md hmiss
    rw [execute_command, executeBody]
    rcases hmiss with hfalse | hnone
    · simp [hfalse]
    · subst hnone
      simp
  · intro eidOpt tc url md hfalse
    rw [execute_command, executeBody]
    simp [hfalse]

/-- Claim C9: a `Navigate` command with a (truthy) url makes exactly one
`goto` attempt, with the full 20-second budget as its timeout, no retries
and no resolution step (the trace is exactly one `goto` call); an exception
during the attempt (including a Playwright timeout) yields `GENERIC_ERROR`
with `url_after` the page URL read after the attempt; success yields
`success = true` and `progress_signal = "navigation"`. -/
theorem c9_navigate_single_attempt (st : AgentState) (env : ExecEnv)
    (eidOpt tc : Option String) (md : Option (List (String × String)))
    (u : String) (hu : ¬u = "") :
    (env.gotoOutcome = .ok →
      execute_command st ⟨.NAVIGATE, eidOpt, tc, some u, md⟩ env
        = ({ success := true, action := .NAVIGATE, url_after := some env.urlAfterGoto,
             progress_signal := some "navigation" }, [.goto u 20000]))
    ∧ (∀ msg, env.gotoOutcome = .timeoutE msg ∨ env.gotoOutcome = .err msg →
      execute_command st ⟨.NAVIGATE, eidOpt, tc, some u, md⟩ env
        = ({ success := false, action := .NAVIGATE, url_after := some env.urlAfterGotoFail,
             failure_kind := some .GENERIC_ERROR, failure_reason := some msg },
           [.goto u 20000])) := by
  have htruthy : pyTruthyOptStr (some u) = true := by
    simp [pyTruthyOptStr, beq_eq_false_iff_ne.mpr hu]
  constructor
  · intro hok
    rw [execute_command, executeBody]
    simp [htruthy, hok, timeout_budget]
  · intro msg hout
    rw [execute_command, executeBody]
    rcases hout with hout | hout <;> simp [htruthy, hout, timeout_budget]

/-! ### Theorems about failure-kind classification (claim C1) -/

theorem charsContain_append_right (needle pre suf : List Char)
    (h : charsContain needle pre = true) :
    charsContain needle (pre ++ suf) = true := by
  induction pre with
  | nil =>
    have hn : needle = [] := by
      simpa [charsContain] using h
    subst hn
    cases suf with
    | nil => simp [charsContain]
    | cons c cs => simp [charsContain, List.isPrefixOf]
  | cons c cs ih =>
    simp only [charsContain, Bool.or_eq_true] at h
    rcases h with h | h
    · have hpre : needle <+: c :: cs := List.isPrefixOf_iff_prefix.mp h
      have hpre2 : needle <+: (c :: cs) ++ suf := hpre.trans (List.prefix_append _ _)
      simp only [List.cons_append, charsContain, Bool.or_eq_true]
      exact Or.inl (List.isPrefixOf_iff_prefix.mpr (by simpa using hpre2))
    · simp only [List.cons_append, charsContain, Bool.or_eq_true]
      exact Or.inr (by simpa using ih h)

theorem pyIn_append_left (needle pre suf : String) (h : pyIn needle pre = true) :
    pyIn needle (pre ++ suf) = true := by
  unfold pyIn at h ⊢
  have hcat : (pre ++ suf).toList = pre.toList ++ suf.toList := by
    simp [String.toList]
  rw [hcat]
  exact charsContain_append_right _ _ _ h

/-- Claim C1 (amended): the "multiple matches" classification only exists
on the `Click` path.  For a `Click` command whose resolution ends with the
recorded ambiguous selector, the result's `failure_kind` is
`AMBIGUOUS_LOCATOR` and the reason reports that (last-observed) selector;
when resolution ends with the generic retry message the kind is
`TIMEOUT_OR_STUCK`.  A `Type` command maps EVERY resolution failure —
ambiguous, generic, or element-not-found — to `TIMEOUT_OR_STUCK`. -/
theorem c1_failure_kind_classification (st : AgentState) (cmd : BrowserCommand) (env : ExecEnv)
    (eid : String) (heid : cmd.element_id = some eid) (hne : ¬eid = "") :
    (cmd.action_type = .CLICK →
      (∀ sel,
        (resolve_locator_with_retries (env.startTime + timeout_budget) eid
            st.element_map env.passes).1 = .ambiguous sel →
        (execute_command st cmd env).1.failure_kind = some .AMBIGUOUS_LOCATOR
        ∧ (execute_command st cmd env).1.failure_reason
            = some ("Ambiguous locator found (matches multiple elements): " ++ sel))
      ∧ ((resolve_locator_with_retries (env.startTime + timeout_budget) eid
            st.element_map env.passes).1 = .generic →
        (execute_command st cmd env).1.failure_kind = some .TIMEOUT_OR_STUCK))
    ∧ (cmd.action_type = .TYPE → ∀ t, cmd.text_content = some t →
        ((∃ sel, (resolve_locator_with_retries (env.startTime + timeout_budget) eid
            st.element_map env.passes).1 = .ambiguous sel)
         ∨ (resolve_locator_with_retries (env.startTime + timeout_budget) eid
            st.element_map env.passes).1 = .generic
         ∨ (resolve_locator_with_retries (env.startTime + timeout_budget) eid
            st.element_map env.passes).1 = .notFound) →
        (execute_command st cmd env).1.failure_kind = some .TIMEOUT_OR_STUCK) := by
  have htruthy : pyTruthyOptStr (some eid) = true := by
    simp [pyTruthyOptStr, beq_eq_false_iff_ne.mpr hne]
  constructor
  · intro hact
    constructor
    · intro sel hres
      have hmul : pyIn "multiple"
          ("Ambiguous locator found (matches multiple elements): " ++ sel) = true :=
        pyIn_append_left _ _ _ (by decide)
      rw [execute_command, executeBody]
      simp [hact, heid, htruthy, hres, renderResolve, hmul]
    · intro hres
      have hmul : pyIn "multiple" "Could not resolve valid locator after retries." = false := by
        decide
      rw [execute_command, executeBody]
      simp [hact, heid, htruthy, hres, renderResolve, hmul]
  · intro hact t htext hres
    rw [execute_command, executeBody]
    rcases hres with ⟨sel, hres⟩ | hres | hres <;>
      simp [hact, heid, htext, htruthy, hres, renderResolve]

/-! ### Theorems about secret substitution (claim C4) -/

/-- Claim C4 (amended): for a `Type` command that resolves an element, the
text delivered to the fill action — for EVERY fill outcome — is the
SEQUENTIAL substitution `substituteSecrets`: secrets are walked in
registration order and each placeholder still present at its turn has all
its current occurrences replaced (overlapping placeholders processed
earlier can therefore destroy a later placeholder's occurrence, so the
original claim's simultaneous "every registered placeholder occurring in
`text_content` is fully substituted" fails; see the counterexample).  The
fill outcome the environment produces is `env.fillOutcome` applied to the
substituted text, and in the success and timeout cases the call trace
records that text as the fill's argument.  The returned `Result` never
carries the substituted text or a secret value: on a successful fill it is
built only from the command's `element_id`, the resolved strategy and the
page URL, with `progress_signal = "input_filled"`; on a fill timeout it is
the fixed `TIMEOUT_OR_STUCK` record with reason "Type timed out"; a
non-timeout fill exception propagates to the outer handler, whose result
carries only the exception's own message prefixed "Unexpected error: " and
the page URL. -/
theorem c4_fill_substitution (st : AgentState) (cmd : BrowserCommand) (env : ExecEnv)
    (eid t : String) (strategy : LocatorStrategy) (spec : LocatorSpec)
    (hact : cmd.action_type = .TYPE)
    (heid : cmd.element_id = some eid) (hne : ¬eid = "")
    (htext : cmd.text_content = some t)
    (hres : (resolve_locator_with_retries (env.startTime + timeout_budget) eid
        st.element_map env.passes).1 = .found strategy spec) :
    (env.fillOutcome (substituteSecrets st.secrets t) = .ok →
      execute_command st cmd env
        = ({ success := true, action := .TYPE, element_id := some eid,
             locator_kind := some strategy, url_after := some env.urlAfterFill,
             progress_signal := some "input_filled" },
           (resolve_locator_with_retries (env.startTime + timeout_budget) eid
               st.element_map env.passes).2.2
             ++ [.fill spec (substituteSecrets st.secrets t)
                  ((env.startTime + timeout_budget - env.fillClock) * 1000)]))
    ∧ (∀ msg, env.fillOutcome (substituteSecrets st.secrets t) = .timeoutE msg →
      execute_command st cmd env
        = ({ success := false, action := .TYPE, element_id := some eid,
             locator_kind := some strategy, url_after := some env.urlAfterFillFail,
             failure_kind := some .TIMEOUT_OR_STUCK,
             failure_reason := some "Type timed out" },
           (resolve_locator_with_retries (env.startTime + timeout_budget) eid
               st.element_map env.passes).2.2
             ++ [.fill spec (substituteSecrets st.secrets t)
                  ((env.startTime + timeout_budget - env.fillClock) * 1000)]))
    ∧ (∀ msg, env.fillOutcome (substituteSecrets st.secrets t) = .err msg →
      execute_command st cmd env
        = ({ success := false, action := .TYPE,
             url_after := some env.urlAtCatch,
             failure_kind := some .GENERIC_ERROR,
             failure_reason := some ("Unexpected error: " ++ msg) }, [])) := by
  have htruthy : pyTruthyOptStr (some eid) = true := by
    simp [pyTruthyOptStr, beq_eq_false_iff_ne.mpr hne]
  refine ⟨?_, ?_, ?_⟩
  · intro hfill
    rw [execute_command, executeBody]
    simp [hact, heid, htext, htruthy, hres, renderResolve, hfill]
  · intro msg hfill
    rw [execute_command, executeBody]
    simp [hact, heid, htext, htruthy, hres, renderResolve, hfill]
  · intro msg hfill
    rw [execute_command, executeBody]
    simp [hact, heid, htext, htruthy, hres, renderResolve, hfill]

/-! ### Concrete elements, environments and states for witnesses and
counterexamples -/

/-- Concrete element carrying only an `id` attribute, so the generator
yields exactly one DISTILLED_ID strategy. -/
def elW : DistilledElement :=
  { element_id := "e1", tag_name := "button", attributes := some [("id", "btn7")] }

/-- Concrete element carrying only a role. -/
def elRoleW : DistilledElement :=
  { element_id := "e2", tag_name := "input", role := some "textbox" }

/-- Pass environment in which every probe reports two matches and the
retry backoff never fits in the deadline. -/
def passAmbW : PassEnv :=
  { clockAtStart := 0, perceiveAtStart := .ok [], probes := fun _ => .counted 2 none,
    probeClock := fun _ => 0, clockAtRetryCheck := 100, perceiveAtRetry := .ok [] }

/-- Pass environment in which every probe reports a unique visible match. -/
def passFoundW : PassEnv :=
  { clockAtStart := 0, perceiveAtStart := .ok [], probes := fun _ => .counted 1 (some true),
    probeClock := fun _ => 0, clockAtRetryCheck := 100, perceiveAtRetry := .ok [] }

/-- Execution environment built around `passAmbW`; all actions succeed. -/
def envAmbW : ExecEnv :=
  { startTime := 0, initialUrl := "u0", passes := fun _ => passAmbW,
    urlAtResolveFail := "u0", clickClock := 1, clickOutcome := .ok,
    urlAfterClick := "u1", urlAfterClickFail := "u0", fillClock := 1,
    fillOutcome := fun _ => .ok, urlAfterFill := "u0", urlAfterFillFail := "u0",
    gotoOutcome := .ok, urlAfterGoto := "u2", urlAfterGotoFail := "u3",
    urlAtCatch := "u4" }

/-- Execution environment built around `passFoundW`; all actions succeed. -/
def envFoundW : ExecEnv :=
  { startTime := 0, initialUrl := "u0", passes := fun _ => passFoundW,
    urlAtResolveFail := "u0", clickClock := 1, clickOutcome := .ok,
    urlAfterClick := "u1", urlAfterClickFail := "u0", fillClock := 1,
    fillOutcome := fun _ => .ok, urlAfterFill := "u0", urlAfterFillFail := "u0",
    gotoOutcome := .ok, urlAfterGoto := "u2", urlAfterGotoFail := "u3",
    urlAtCatch := "u4" }

/-- Variant of `envFoundW` whose fill call raises a Playwright timeout. -/
def envFillTimeoutW : ExecEnv :=
  { startTime := 0, initialUrl := "u0", passes := fun _ => passFoundW,
    urlAtResolveFail := "u0", clickClock := 1, clickOutcome := .ok,
    urlAfterClick := "u1", urlAfterClickFail := "u0", fillClock := 1,
    fillOutcome := fun _ => .timeoutE "to", urlAfterFill := "u0",
    urlAfterFillFail := "u5", gotoOutcome := .ok, urlAfterGoto := "u2",
    urlAfterGotoFail := "u3", urlAtCatch := "u4" }

/-- Agent state holding `elW` and two overlapping secrets. -/
def stW : AgentState :=
  { element_map := update_map [elW], secrets := [("AB", "X"), ("BC", "Y")] }

/-- Counterexample to claim C1 as stated: a `Type` command whose resolution
fails after a strategy observed two matching elements (the resolver's
outcome is `ambiguous`, and a probe that counted 2 is in the trace) still
returns `failure_kind = TIMEOUT_OR_STUCK`, not `AMBIGUOUS_LOCATOR`. -/
theorem c1_counterexample_type_kind :
    (execute_command stW
        { action_type := .TYPE, element_id := some "e1", text_content := some "hi" }
        envAmbW).1.failure_kind = some .TIMEOUT_OR_STUCK
    ∧ (resolve_locator_with_retries (envAmbW.startTime + timeout_budget) "e1"
        stW.element_map envAmbW.passes).1
        = .ambiguous (locatorStr (.cssAttr "id" "btn7"))
    ∧ BrowserCall.probeCount (.cssAttr "id" "btn7") (some 2)
        ∈ (execute_command stW
            { action_type := .TYPE, element_id := some "e1", text_content := some "hi" }
            envAmbW).2 := by
  decide

/-- Witness for C1: for a `Click` command under the same ambiguous
environment, the theorem yields `AMBIGUOUS_LOCATOR` with the reported
selector. -/
theorem c1_failure_kind_classification_witness :
    (execute_command stW { action_type := .CLICK, element_id := some "e1" }
        envAmbW).1.failure_kind = some .AMBIGUOUS_LOCATOR
    ∧ (execute_command stW { action_type := .CLICK, element_id := some "e1" }
        envAmbW).1.failure_reason
      = some ("Ambiguous locator found (matches multiple elements): "
          ++ locatorStr (.cssAttr "id" "btn7")) := by
  have h := (c1_failure_kind_classification stW
    { action_type := .CLICK, element_id := some "e1" } envAmbW "e1" rfl (by decide)).1 rfl
  exact h.1 (locatorStr (.cssAttr "id" "btn7")) (by decide)

/-- Counterexample to claim C4 as stated: with secrets `AB ↦ X` and
`BC ↦ Y` registered (in that order) and text `"ABC"`, the placeholder
`"BC"` occurs in `text_content`, yet the text delivered to the fill action
is `"XC"`: the `BC` occurrence was neither preserved nor replaced by its
registered value `Y`, so not every registered placeholder occurring in the
text is substituted. -/
theorem c4_counterexample_overlap :
    (execute_command stW
        { action_type := .TYPE, element_id := some "e1", text_content := some "ABC" }
        envFoundW).2
      = [ .probeCount (.cssAttr "id" "btn7") (some 1),
          .probeVisible (.cssAttr "id" "btn7") (some true),
          .fill (.cssAttr "id" "btn7") "XC" 19000 ]
    ∧ pyIn "BC" "ABC" = true
    ∧ pyIn "BC" "XC" = false
    ∧ pyIn "Y" "XC" = false := by
  decide

/-- Witness for C4: the amended theorem applied to the concrete overlap
scenario, once with a successful fill and once with a fill timeout (whose
secret-free "Type timed out" result still records the substituted text as
the fill call's argument). -/
theorem c4_fill_substitution_witness :
    (execute_command stW
        { action_type := .TYPE, element_id := some "e1", text_content := some "ABC" }
        envFoundW
      = ({ success := true, action := .TYPE, element_id := some "e1",
           locator_kind := some .DISTILLED_ID, url_after := some "u0",
           progress_signal := some "input_filled" },
         (resolve_locator_with_retries (envFoundW.startTime + timeout_budget) "e1"
             stW.element_map envFoundW.passes).2.2
           ++ [.fill (.cssAttr "id" "btn7") (substituteSecrets stW.secrets "ABC")
                ((envFoundW.startTime + timeout_budget - envFoundW.fillClock) * 1000)]))
    ∧ (execute_command stW
        { action_type := .TYPE, element_id := some "e1", text_content := some "ABC" }
        envFillTimeoutW
      = ({ success := false, action := .TYPE, element_id := some "e1",
           locator_kind := some .DISTILLED_ID, url_after := some "u5",
           failure_kind := some .TIMEOUT_OR_STUCK,
           failure_reason := some "Type timed out" },
         (resolve_locator_with_retries (envFillTimeoutW.startTime + timeout_budget) "e1"
             stW.element_map envFillTimeoutW.passes).2.2
           ++ [.fill (.cssAttr "id" "btn7") (substituteSecrets stW.secrets "ABC")
                ((envFillTimeoutW.startTime + timeout_budget
                  - envFillTimeoutW.fillClock) * 1000)])) := by
  constructor
  · exact (c4_fill_substitution stW
      { action_type := .TYPE, element_id := some "e1", text_content := some "ABC" }
      envFoundW "e1" "ABC" .DISTILLED_ID (.cssAttr "id" "btn7")
      rfl rfl (by decide) rfl (by decide)).1 (by decide)
  · exact (c4_fill_substitution stW
      { action_type := .TYPE, element_id := some "e1", text_content := some "ABC" }
      envFillTimeoutW "e1" "ABC" .DISTILLED_ID (.cssAttr "id" "btn7")
      rfl rfl (by decide) rfl (by decide)).2.1 "to" (by decide)

/-- Witness for C5: a one-strategy pass whose probe reports a unique
visible match returns it immediately, having probed exactly one strategy. -/
theorem c5_single_pass_witness :
    (runPass 20 passFoundW [(.DISTILLED_ID, LocatorSpec.cssAttr "id" "btn7")] 0 none).1
      = .found .DISTILLED_ID (.cssAttr "id" "btn7")
    ∧ ((runPass 20 passFoundW [(.DISTILLED_ID, LocatorSpec.cssAttr "id" "btn7")] 0
        none).2.2.countP isProbeCount) = 1 := by
  have h := (c5_single_pass 20 passFoundW [(.DISTILLED_ID, .cssAttr "id" "btn7")]
      (by intro i; show (0 : Nat) < 20; omega)).1 0 (by decide) rfl
      (fun j hj => absurd hj (Nat.not_lt_zero j))
  exact ⟨h.1, h.2.2⟩

/-- Witness for C6: under the ambiguous environment (whose retry backoff
never fits the deadline) the loop executes at most 4 passes, and the
initial pass record carries no sleep and no refresh. -/
theorem c6_retry_discipline_witness :
    (resolve_locator_with_retries 20 "e1" stW.element_map envAmbW.passes).2.1.length ≤ 4
    ∧ ((⟨0, 0, none, false⟩ : PassRec).sleptBefore = none
        ∧ (⟨0, 0, none, false⟩ : PassRec).refreshedBefore = false) := by
  have h := c6_retry_discipline 20 "e1" stW.element_map envAmbW.passes
  exact ⟨h.1, h.2.2.2.1 ⟨0, 0, none, false⟩ (by decide) rfl⟩

/-- Witness for C7: the generator on `elW` yields exactly the single
DISTILLED_ID candidate, and a nonempty ARIA group implies a truthy role. -/
theorem c7_generator_groups_witness :
    get_locators_for_distilled_element elW = [(.DISTILLED_ID, .cssAttr "id" "btn7")]
    ∧ pyTruthyOptStr elRoleW.role = true := by
  constructor
  · rw [(c7_generator_groups elW).1]
    decide
  · exact (c7_generator_groups elRoleW).2.2.2.2.1 (by decide)

/-- Witness for C8: the three guard results at concrete commands. -/
theorem c8_missing_field_guards_witness :
    execute_command stW { action_type := .CLICK } envAmbW
      = ({ success := false, action := .CLICK, failure_kind := some .GENERIC_ERROR,
           failure_reason := some "Missing element_id" }, [])
    ∧ execute_command stW { action_type := .TYPE, element_id := some "e1" } envAmbW
      = ({ success := false, action := .TYPE, failure_kind := some .GENERIC_ERROR,
           failure_reason := some "Missing id or text" }, [])
    ∧ execute_command stW { action_type := .NAVIGATE } envAmbW
      = ({ success := false, action := .NAVIGATE, failure_kind := some .GENERIC_ERROR,
           failure_reason := some "Missing URL" }, []) := by
  refine ⟨?_, ?_, ?_⟩
  · exact (c8_missing_field_guards stW envAmbW).1 none none none none rfl
  · exact (c8_missing_field_guards stW envAmbW).2.1 (some "e1") none none none (Or.inr rfl)
  · exact (c8_missing_field_guards stW envAmbW).2.2 none none none none rfl

/-- Witness for C9: a concrete successful navigation. -/
theorem c9_navigate_single_attempt_witness :
    execute_command stW { action_type := .NAVIGATE, url := some "site" } envAmbW
      = ({ success := true, action := .NAVIGATE, url_after := some "u2",
           progress_signal := some "navigation" }, [.goto "site" 20000]) := by
  exact (c9_navigate_single_attempt stW envAmbW none none none "site" (by decide)).1 rfl

end AIBrowser
